import Mathlib

/-!
Verification of the cache-aside HTTP service in `main.py`: a Redis-backed
connection pool (`RedisClient`), generic cache accessors (`get_cached_data`,
`set_cached_data`), and the two endpoint handlers (`get_random_number`,
`get_random_user`) that check the cache, generate a payload on a miss, store
it with a fixed TTL and return the payload with its provenance.

The embedding is shallow: the Redis store is a map from keys to
(value, remaining-TTL) pairs, store failures are injected through explicit
fault fields, Python's `random.randint`/`random.choice` become functions of
an explicit random input, and `json.dumps`/`json.loads` are modelled by a
serializer and a parser for the exact JSON texts the handlers exchange.
-/

namespace RedisApp

/-! ### Decimal serialization of naturals (the `json.dumps` number encoding) -/

/-- The decimal digit character for `d < 10`, as produced by `json.dumps`. -/
def digitChar (d : Nat) : Char :=
  Char.ofNat (48 + d)

/-- Decimal digit characters of `n`, most significant first. -/
def natDigits (n : Nat) : List Char :=
  if h : n < 10 then [digitChar n]
  else
    have : n / 10 < n := Nat.div_lt_self (by omega) (by omega)
    natDigits (n / 10) ++ [digitChar (n % 10)]

/-- Decimal string of `n`, as written by `json.dumps` for a nonnegative int. -/
def natToString (n : Nat) : String :=
  ⟨natDigits n⟩

/-- Reads a decimal digit character back to its value. -/
def digitVal (c : Char) : Option Nat :=
  if 48 ≤ c.toNat ∧ c.toNat ≤ 57 then some (c.toNat - 48) else none

/-- Greedily parses decimal digits, accumulating the value. -/
def parseNatAux : List Char → Nat → Nat × List Char
  | [], acc => (acc, [])
  | c :: cs, acc =>
    match digitVal c with
    | some d => parseNatAux cs (10 * acc + d)
    | none => (acc, c :: cs)

/-- Parses a decimal natural (at least one digit) from the front of `cs`. -/
def parseNat (cs : List Char) : Option (Nat × List Char) :=
  match cs with
  | [] => none
  | c :: _ =>
    match digitVal c with
    | some _ => some (parseNatAux cs 0)
    | none => none

theorem digitVal_digitChar {d : Nat} (h : d < 10) :
    digitVal (digitChar d) = some d := by
  interval_cases d <;> rfl

theorem digitVal_isSome_digitChar {d : Nat} (h : d < 10) :
    (digitVal (digitChar d)).isSome := by
  rw [digitVal_digitChar h]; rfl

/-- `natDigits` emits only decimal digit characters. -/
theorem natDigits_all_digits (n : Nat) :
    ∀ c ∈ natDigits n, (digitVal c).isSome := by
  induction n using Nat.strong_induction_on with
  | _ n ih =>
    rw [natDigits]
    split
    · intro c hc
      simp only [List.mem_singleton] at hc
      subst hc
      exact digitVal_isSome_digitChar (by omega)
    · intro c hc
      rw [List.mem_append] at hc
      rcases hc with hc | hc
      · exact ih (n / 10) (Nat.div_lt_self (by omega) (by omega)) c hc
      · simp only [List.mem_singleton] at hc
        subst hc
        exact digitVal_isSome_digitChar (Nat.mod_lt _ (by omega))

/-- Number of decimal digits of `n`. -/
def digitCount (n : Nat) : Nat :=
  (natDigits n).length

theorem natDigits_lt {n : Nat} (h : n < 10) : natDigits n = [digitChar n] := by
  rw [natDigits]
  exact dif_pos h

theorem natDigits_ge {n : Nat} (h : ¬ n < 10) :
    natDigits n = natDigits (n / 10) ++ [digitChar (n % 10)] := by
  conv_lhs => rw [natDigits]
  rw [dif_neg h]

theorem digitCount_lt {n : Nat} (h : n < 10) : digitCount n = 1 := by
  rw [digitCount, natDigits_lt h]
  rfl

theorem digitCount_ge {n : Nat} (h : ¬ n < 10) :
    digitCount n = digitCount (n / 10) + 1 := by
  rw [digitCount, digitCount, natDigits_ge h, List.length_append]
  rfl

/-- A digit character at the head of the input is consumed onto the
accumulator. -/
theorem parseNatAux_cons_digit {c : Char} {d : Nat} (hc : digitVal c = some d)
    (cs : List Char) (acc : Nat) :
    parseNatAux (c :: cs) acc = parseNatAux cs (10 * acc + d) := by
  rw [parseNatAux, hc]

/-- Consuming the digits of `n` shifts `n` onto the accumulator and continues
with the rest of the input. -/
theorem parseNatAux_natDigits (n : Nat) :
    ∀ acc rest, parseNatAux (natDigits n ++ rest) acc =
      parseNatAux rest (acc * 10 ^ digitCount n + n) := by
  induction n using Nat.strong_induction_on with
  | _ n ih =>
    intro acc rest
    by_cases h : n < 10
    · rw [natDigits_lt h, digitCount_lt h, List.singleton_append,
        parseNatAux_cons_digit (digitVal_digitChar h), pow_one,
        Nat.mul_comm 10 acc]
    · have hlt : n / 10 < n := Nat.div_lt_self (by omega) (by omega)
      have hmod : n % 10 < 10 := Nat.mod_lt _ (by omega)
      rw [natDigits_ge h, digitCount_ge h, List.append_assoc,
        List.singleton_append, ih (n / 10) hlt,
        parseNatAux_cons_digit (digitVal_digitChar hmod)]
      have heq : ∀ B : Nat, 10 * (B + n / 10) + n % 10 = B * 10 + n :=
        fun B => by omega
      rw [heq, pow_succ, ← Nat.mul_assoc]

/-- Parsing past the end of input returns the accumulator. -/
theorem parseNatAux_nil (acc : Nat) : parseNatAux [] acc = (acc, []) := rfl

/-- Parsing stops at a non-digit character. -/
theorem parseNatAux_stop {c : Char} (hc : digitVal c = none) (cs : List Char)
    (acc : Nat) : parseNatAux (c :: cs) acc = (acc, c :: cs) := by
  rw [parseNatAux, hc]

/-- `natDigits` is never empty. -/
theorem natDigits_ne_nil (n : Nat) : natDigits n ≠ [] := by
  rw [natDigits]
  split
  · simp
  · simp

/-- `parseNat` inverts `natToString` in front of input that does not start
with a digit. -/
theorem parseNat_natDigits (n : Nat) (rest : List Char)
    (hrest : ∀ c cs, rest = c :: cs → digitVal c = none) :
    parseNat (natDigits n ++ rest) = some (n, rest) := by
  have hne := natDigits_ne_nil n
  have hall := natDigits_all_digits n
  rcases hd : natDigits n with _ | ⟨c, cs⟩
  · exact absurd hd hne
  · have hcdig : (digitVal c).isSome := hall c (by rw [hd]; exact List.mem_cons_self _ _)
    rw [parseNat.eq_def]
    simp only [List.cons_append]
    rcases hv : digitVal c with _ | d
    · rw [hv] at hcdig; exact absurd hcdig (by simp)
    · have hfold : parseNatAux ((c :: cs) ++ rest) 0 = parseNatAux rest n := by
        rw [← hd, parseNatAux_natDigits]
        simp
      simp only [← List.cons_append, hfold]
      cases rest with
      | nil => rw [parseNatAux_nil]
      | cons r rs => rw [parseNatAux_stop (hrest r rs rfl)]

/-! ### JSON texts exchanged by the handlers

`json.dumps` is modelled by serializers emitting exactly the texts the
handlers write (default separators, insertion order of the dict literals in
`main.py`), and `json.loads` by parsers for those texts.  The payload strings
of this application (names, emails) contain no quote, backslash or control
character, so `json.dumps` string escaping never fires on them; the
`ensure_ascii` transport encoding of non-ASCII characters, which `json.loads`
inverts exactly, is left out of the model. -/

/-- Matches a literal prefix and returns the remaining input. -/
def expectLit : List Char → List Char → Option (List Char)
  | [], cs => some cs
  | _ :: _, [] => none
  | l :: ls, c :: cs => if c = l then expectLit ls cs else none

theorem expectLit_append (lit rest : List Char) :
    expectLit lit (lit ++ rest) = some rest := by
  induction lit with
  | nil => rfl
  | cons l ls ih =>
    rw [List.cons_append, expectLit, if_pos rfl, ih]

/-- Reads the body of a JSON string literal up to its closing quote. -/
def takeStr : List Char → Option (String × List Char)
  | [] => none
  | c :: cs =>
    if c = '"' then some ("", cs)
    else
      match takeStr cs with
      | some (s, rest) => some (⟨c :: s.data⟩, rest)
      | none => none

theorem takeStr_append (s : List Char) (hs : '"' ∉ s) (rest : List Char) :
    takeStr (s ++ '"' :: rest) = some (⟨s⟩, rest) := by
  induction s with
  | nil =>
    rw [List.nil_append, takeStr, if_pos rfl]
  | cons c cs ih =>
    have hc : ¬ (c = '"') := fun h => hs (h ▸ List.mem_cons_self c cs)
    rw [List.cons_append, takeStr, if_neg hc,
      ih (fun h => hs (List.mem_cons_of_mem c h))]

theorem mkData (l : List Char) : (⟨l⟩ : String).data = l := rfl

theorem dataMk (s : String) : (⟨s.data⟩ : String) = s := rfl

/-- A key whose text starts with a known non-digit character never starts
with a digit once a tail is appended. -/
theorem not_digit_head {k : List Char} {c0 : Char} {t : List Char}
    (hk : k = c0 :: t) (h0 : digitVal c0 = none) (B : List Char) :
    ∀ c cs, k ++ B = c :: cs → digitVal c = none := by
  intro c cs hc
  subst hk
  rw [List.cons_append] at hc
  injection hc with h1 _
  exact h1 ▸ h0

/-- The text `{"number": ` opening the number JSON object. -/
def numberKey : List Char := '{' :: "\"number\": ".data

/-- The text `{"id": ` opening the user JSON object. -/
def idKey : List Char := '{' :: "\"id\": ".data

/-- The text `, "name": "` between the id value and the name value. -/
def nameKey : List Char := ", \"name\": \"".data

/-- The text `, "age": ` between the name's closing quote and the age. -/
def ageKey : List Char := ", \"age\": ".data

/-- The text `, "email": "` between the age value and the email value. -/
def emailKey : List Char := ", \"email\": \"".data

/-- The payload of `GET /random-number`: the dict `{"number": n}`. -/
structure NumberPayload where
  number : Nat
  deriving DecidableEq, Repr

/-- The payload of `GET /random-user`: the dict built in `get_random_user`. -/
structure UserPayload where
  id : Nat
  name : String
  age : Nat
  email : String
  deriving DecidableEq, Repr

/-- `json.dumps` on the number payload: the text `{"number": n}`. -/
def NumberPayload.dumps (p : NumberPayload) : String :=
  ⟨numberKey ++ (natDigits p.number ++ ['}'])⟩

/-- `json.loads` on the texts cached under `"random_number"`. -/
def NumberPayload.loads (s : String) : Option NumberPayload :=
  match expectLit numberKey s.data with
  | none => none
  | some cs =>
    match parseNat cs with
    | none => none
    | some (n, rest) => if rest = ['}'] then some ⟨n⟩ else none

/-- `json.dumps` on the user payload (dict insertion order id, name, age,
email; default separators): the text
`{"id": i, "name": "nm", "age": a, "email": "em"}`. -/
def UserPayload.dumps (p : UserPayload) : String :=
  ⟨idKey ++ (natDigits p.id ++ (nameKey ++ (p.name.data ++ ('"' ::
    (ageKey ++ (natDigits p.age ++ (emailKey ++ (p.email.data ++
      ('"' :: ['}'])))))))))⟩

/-- `json.loads` on the texts cached under `"random_user"`. -/
def UserPayload.loads (s : String) : Option UserPayload :=
  match expectLit idKey s.data with
  | none => none
  | some cs =>
    match parseNat cs with
    | none => none
    | some (i, cs) =>
      match expectLit nameKey cs with
      | none => none
      | some cs =>
        match takeStr cs with
        | none => none
        | some (nm, cs) =>
          match expectLit ageKey cs with
          | none => none
          | some cs =>
            match parseNat cs with
            | none => none
            | some (a, cs) =>
              match expectLit emailKey cs with
              | none => none
              | some cs =>
                match takeStr cs with
                | none => none
                | some (em, rest) =>
                  if rest = ['}'] then some ⟨i, nm, a, em⟩ else none

theorem number_roundtrip (p : NumberPayload) :
    NumberPayload.loads (NumberPayload.dumps p) = some p := by
  obtain ⟨n⟩ := p
  have h1 := expectLit_append numberKey (natDigits n ++ ['}'])
  have h2 := parseNat_natDigits n ['}']
    (by intro c cs hc; cases hc; decide)
  simp only [NumberPayload.dumps, NumberPayload.loads, mkData, h1, h2]
  simp

theorem user_roundtrip (p : UserPayload)
    (hn : '"' ∉ p.name.data) (he : '"' ∉ p.email.data) :
    UserPayload.loads (UserPayload.dumps p) = some p := by
  obtain ⟨i, nm, a, em⟩ := p
  simp only at hn he
  have h1 := expectLit_append idKey (natDigits i ++ (nameKey ++
    (nm.data ++ ('"' :: (ageKey ++ (natDigits a ++ (emailKey ++
      (em.data ++ ('"' :: ['}'])))))))))
  have h2 := parseNat_natDigits i (nameKey ++ (nm.data ++ ('"' ::
    (ageKey ++ (natDigits a ++ (emailKey ++ (em.data ++
      ('"' :: ['}'])))))))) (not_digit_head rfl (by decide) _)
  have h3 := expectLit_append nameKey (nm.data ++ ('"' ::
    (ageKey ++ (natDigits a ++ (emailKey ++ (em.data ++
      ('"' :: ['}'])))))))
  have h4 := takeStr_append nm.data hn
    (ageKey ++ (natDigits a ++ (emailKey ++ (em.data ++
      ('"' :: ['}'])))))
  have h5 := expectLit_append ageKey (natDigits a ++ (emailKey ++
    (em.data ++ ('"' :: ['}']))))
  have h6 := parseNat_natDigits a (emailKey ++ (em.data ++
    ('"' :: ['}']))) (not_digit_head rfl (by decide) _)
  have h7 := expectLit_append emailKey (em.data ++ ('"' :: ['}']))
  have h8 := takeStr_append em.data he ['}']
  simp only [UserPayload.dumps, UserPayload.loads, mkData, dataMk,
    h1, h2, h3, h4, h5, h6, h7, h8]
  simp

/-! ### Randomness and the generators

Python's process-wide PRNG is modelled by explicit random inputs: each call
site of `random.randint` / `random.choice` consumes one input `r : Nat` and
maps it into the call's range, covering every value the library call can
return. -/

/-- `random.randint(a, b)`: an integer in `[a, b]`, selected by `r`. -/
def randint (a b r : Nat) : Nat :=
  a + r % (b - a + 1)

/-- `random.choice(xs)`: an element of `xs`, selected by `r`. -/
def choice (xs : List String) (r : Nat) : String :=
  xs.getD (r % xs.length) ""

/-- The fixed first-name list of `get_random_user`. -/
def first_names : List String :=
  ["Алексей", "Мария", "Иван", "Ольга", "Дмитрий"]

/-- The fixed last-name list of `get_random_user`. -/
def last_names : List String :=
  ["Петров", "Сидорова", "Иванов", "Смирнова", "Кузнецов"]

/-- The miss-path payload of `get_random_number`:
`{"number": random.randint(1, 100)}`. -/
def generateNumber (r : Nat) : NumberPayload :=
  ⟨randint 1 100 r⟩

/-- The random draws consumed by `get_random_user`'s miss path, in program
order (id, first name, last name, age, email digits). -/
structure UserRand where
  rid : Nat
  rfirst : Nat
  rlast : Nat
  rage : Nat
  remail : Nat

/-- The miss-path payload of `get_random_user`: the dict literal of
`main.py` built from five random draws. -/
def generateUser (u : UserRand) : UserPayload where
  id := randint 1000 9999 u.rid
  name := choice first_names u.rfirst ++ " " ++ choice last_names u.rlast
  age := randint 18 65 u.rage
  email := "user" ++ natToString (randint 100 999 u.remail) ++ "@example.com"

/-! ### The Redis store and the cache accessors -/

/-- The Redis keyspace: each key holds at most one string value together
with its remaining TTL in seconds (`SETEX` semantics); absent or expired
keys map to `none`. -/
def Store := String → Option (String × Nat)

/-- The store with no live keys. -/
def Store.empty : Store := fun _ => none

/-- `SETEX key seconds value`: one store operation that places `value` under
`key` with TTL `seconds`, overwriting any previous value and TTL. -/
def Store.setex (s : Store) (key : String) (seconds : Nat) (value : String) :
    Store :=
  fun k => if k = key then some (value, seconds) else s k

/-- Errors a handler can raise: a Redis failure carrying the underlying
message, or a `json.loads` failure on a cached text. -/
inductive AppError where
  | store (msg : String)
  | decode (raw : String)
  deriving DecidableEq, Repr

/-- The external Redis as seen by the app, with fault injection: `failGet`
(resp. `failSet`) holds the error message a `GET` (resp. `SETEX`) raises,
when present. -/
structure RedisState where
  store : Store
  failGet : Option String := none
  failSet : Option String := none

/-- `get_cached_data`: `redis.get(key)` — the cached string, or `none` when
the key is absent or expired; a Redis error propagates unhandled. -/
def get_cached_data (st : RedisState) (key : String) :
    Except AppError (Option String) :=
  match st.failGet with
  | some msg => .error (.store msg)
  | none => .ok ((st.store key).map Prod.fst)

/-- `set_cached_data`: `redis.setex(key, expire_seconds, value)` with the
declared default TTL of 60 seconds; a Redis error propagates unhandled. -/
def set_cached_data (st : RedisState) (key : String) (value : String)
    (expire_seconds : Nat := 60) : Except AppError RedisState :=
  match st.failSet with
  | some msg => .error (.store msg)
  | none => .ok { st with store := st.store.setex key expire_seconds value }

/-! ### The endpoint handlers -/

/-- Python truthiness of `Optional[str]` as used in `if cached:`. -/
def truthy : Option String → Bool
  | none => false
  | some s => s ≠ ""

/-- The response envelope `{"data": ..., "source": "cache" | "generated"}`. -/
structure Response (α : Type) where
  data : α
  source : String
  deriving DecidableEq, Repr

/-- Handler of `GET /random-number`: read the key `"random_number"`; on a hit
return the deserialized cached payload with source `"cache"`; on a miss
sleep (no cache effect), generate `{"number": randint(1, 100)}`, store its
JSON under the key for 30 seconds, and return it with source `"generated"`.
The second component is the Redis state after the call; an unhandled error
leaves it unchanged. -/
def get_random_number (st : RedisState) (r : Nat) :
    Except AppError (Response NumberPayload) × RedisState :=
  match get_cached_data st "random_number" with
  | .error e => (.error e, st)
  | .ok cached =>
    if truthy cached then
      match NumberPayload.loads (cached.getD "") with
      | some d => (.ok ⟨d, "cache"⟩, st)
      | none => (.error (.decode (cached.getD "")), st)
    else
      let data := generateNumber r
      match set_cached_data st "random_number" (NumberPayload.dumps data) 30 with
      | .error e => (.error e, st)
      | .ok st2 => (.ok ⟨data, "generated"⟩, st2)

/-- Handler of `GET /random-user`: read the key `"random_user"`; on a hit
return the deserialized cached payload with source `"cache"`; on a miss
sleep (no cache effect), build the user dict from five random draws, store
its JSON under the key for 60 seconds, and return it with source
`"generated"`.  The second component is the Redis state after the call; an
unhandled error leaves it unchanged. -/
def get_random_user (st : RedisState) (u : UserRand) :
    Except AppError (Response UserPayload) × RedisState :=
  match get_cached_data st "random_user" with
  | .error e => (.error e, st)
  | .ok cached =>
    if truthy cached then
      match UserPayload.loads (cached.getD "") with
      | some d => (.ok ⟨d, "cache"⟩, st)
      | none => (.error (.decode (cached.getD "")), st)
    else
      let data := generateUser u
      match set_cached_data st "random_user" (UserPayload.dumps data) 60 with
      | .error e => (.error e, st)
      | .ok st2 => (.ok ⟨data, "generated"⟩, st2)

/-! ### The Redis connection manager (`RedisClient`) -/

/-- The environment variables `RedisClient.get_redis` reads through
`os.getenv`; `none` models an unset variable. -/
structure Env where
  REDIS_HOST : Option String := none
  REDIS_PORT : Option String := none
  REDIS_PASSWORD : Option String := none
  REDIS_DB : Option String := none
  deriving DecidableEq, Repr

/-- Python string interpolation of an `os.getenv` result: an unset variable
prints as the text `None` inside the f-string. -/
def envText : Option String → String
  | some s => s
  | none => "None"

/-- `int(os.getenv("REDIS_DB", 0))` on the numeric strings used for the
database index (Python `int` raises on non-numeric text, a case no claim
exercises). -/
def envDb : Option String → Nat
  | some s => (parseNatAux s.data 0).1
  | none => 0

/-- The configuration captured by `ConnectionPool.from_url` when the pool is
created: every field is resolved from the environment at that moment and
frozen into the pool object. -/
structure PoolConfig where
  url : String
  password : Option String
  db : Nat
  decode_responses : Bool
  max_connections : Nat
  deriving DecidableEq, Repr

/-- The `ConnectionPool.from_url(...)` call of `RedisClient.get_redis`,
applied to the environment current at pool-creation time (`or None` maps an
empty password string to no authentication). -/
def poolFromEnv (env : Env) : PoolConfig where
  url := "redis://" ++ envText env.REDIS_HOST ++ ":" ++ envText env.REDIS_PORT
  password :=
    match env.REDIS_PASSWORD with
    | some p => if p = "" then none else some p
    | none => none
  db := envDb env.REDIS_DB
  decode_responses := true
  max_connections := 20

/-- The class-level state of `RedisClient`: its `_pool` attribute. -/
structure ClientState where
  pool : Option PoolConfig
  deriving DecidableEq, Repr

/-- `RedisClient.get_redis`: when `_pool is None`, create it from the
current environment; return a `Redis` view on the pool (identified with its
configuration) together with the class state after the call. -/
def RedisClient.get_redis (env : Env) (s : ClientState) :
    PoolConfig × ClientState :=
  match s.pool with
  | some p => (p, s)
  | none =>
    let p := poolFromEnv env
    (p, ⟨some p⟩)

/-- `RedisClient.close`: when a pool exists, disconnect it and set `_pool`
back to `None`; otherwise do nothing. -/
def RedisClient.close (s : ClientState) : ClientState :=
  match s.pool with
  | some _ => ⟨none⟩
  | none => s

/-- One call against `RedisClient`, carrying the process environment at the
time of the call. -/
inductive ClientCall where
  | acquire (env : Env)
  | shutdown

/-- Whether executing this call in state `s` creates a new connection pool
(`ConnectionPool.from_url` runs). -/
def createsPool (s : ClientState) : ClientCall → Bool
  | .acquire _ => s.pool.isNone
  | .shutdown => false

/-- The state transition of one `RedisClient` call. -/
def stepClient (s : ClientState) : ClientCall → ClientState
  | .acquire env => (RedisClient.get_redis env s).2
  | .shutdown => RedisClient.close s

/-- Runs a sequence of `RedisClient` calls. -/
def runClient (s : ClientState) : List ClientCall → ClientState
  | [] => s
  | c :: cs => runClient (stepClient s c) cs

/-- How many pool creations a sequence of calls performs. -/
def poolCreations (s : ClientState) : List ClientCall → Nat
  | [] => 0
  | c :: cs =>
    (if createsPool s c then 1 else 0) + poolCreations (stepClient s c) cs

/-! ### Path lemmas for the accessors and handlers -/

theorem get_cached_ok {st : RedisState} (h : st.failGet = none)
    (key : String) :
    get_cached_data st key = .ok ((st.store key).map Prod.fst) := by
  unfold get_cached_data
  rw [h]

theorem get_cached_err {st : RedisState} {msg : String}
    (h : st.failGet = some msg) (key : String) :
    get_cached_data st key = .error (.store msg) := by
  unfold get_cached_data
  rw [h]

theorem set_cached_ok {st : RedisState} (h : st.failSet = none)
    (key value : String) (ttl : Nat) :
    set_cached_data st key value ttl =
      .ok {st with store := st.store.setex key ttl value} := by
  unfold set_cached_data
  rw [h]

theorem set_cached_err {st : RedisState} {msg : String}
    (h : st.failSet = some msg) (key value : String) (ttl : Nat) :
    set_cached_data st key value ttl = .error (.store msg) := by
  unfold set_cached_data
  rw [h]

/-- A failing `GET` aborts `get_random_number` with the store's error and no
state change. -/
theorem number_get_fail {st : RedisState} (r : Nat) {msg : String}
    (h : st.failGet = some msg) :
    get_random_number st r = (.error (.store msg), st) := by
  simp only [get_random_number, get_cached_err h]

/-- The miss path of `get_random_number`: generate, write with TTL 30,
respond `"generated"`. -/
theorem number_miss {st : RedisState} (r : Nat)
    (hGet : st.failGet = none) (hSet : st.failSet = none)
    (hMiss : truthy ((st.store "random_number").map Prod.fst) = false) :
    get_random_number st r =
      (.ok ⟨generateNumber r, "generated"⟩,
        {st with store := st.store.setex "random_number" 30 (NumberPayload.dumps (generateNumber r))}) := by
  simp only [get_random_number, get_cached_ok hGet, hMiss,
    Bool.false_eq_true, if_false, set_cached_ok hSet]

/-- The miss path of `get_random_number` with a failing `SETEX`: the store
error propagates and the state is unchanged. -/
theorem number_set_fail {st : RedisState} (r : Nat) {msg : String}
    (hGet : st.failGet = none) (hSet : st.failSet = some msg)
    (hMiss : truthy ((st.store "random_number").map Prod.fst) = false) :
    get_random_number st r = (.error (.store msg), st) := by
  simp only [get_random_number, get_cached_ok hGet, hMiss,
    Bool.false_eq_true, if_false, set_cached_err hSet]

/-- The hit path of `get_random_number`: deserialize the cached text and
respond `"cache"` without touching the store. -/
theorem number_hit {st : RedisState} (r : Nat) {c : String}
    {d : NumberPayload} (hGet : st.failGet = none)
    (hc : (st.store "random_number").map Prod.fst = some c)
    (hne : ¬ (c = "")) (hload : NumberPayload.loads c = some d) :
    get_random_number st r = (.ok ⟨d, "cache"⟩, st) := by
  simp only [get_random_number, get_cached_ok hGet, hc, truthy,
    decide_eq_true_eq, ne_eq, hne, not_false_eq_true, ite_true,
    Option.getD_some, hload]

/-- A failing `GET` aborts `get_random_user` with the store's error and no
state change. -/
theorem user_get_fail {st : RedisState} (u : UserRand) {msg : String}
    (h : st.failGet = some msg) :
    get_random_user st u = (.error (.store msg), st) := by
  simp only [get_random_user, get_cached_err h]

/-- The miss path of `get_random_user`: generate, write with TTL 60,
respond `"generated"`. -/
theorem user_miss {st : RedisState} (u : UserRand)
    (hGet : st.failGet = none) (hSet : st.failSet = none)
    (hMiss : truthy ((st.store "random_user").map Prod.fst) = false) :
    get_random_user st u =
      (.ok ⟨generateUser u, "generated"⟩,
        {st with store := st.store.setex "random_user" 60 (UserPayload.dumps (generateUser u))}) := by
  simp only [get_random_user, get_cached_ok hGet, hMiss,
    Bool.false_eq_true, if_false, set_cached_ok hSet]

/-- The miss path of `get_random_user` with a failing `SETEX`: the store
error propagates and the state is unchanged. -/
theorem user_set_fail {st : RedisState} (u : UserRand) {msg : String}
    (hGet : st.failGet = none) (hSet : st.failSet = some msg)
    (hMiss : truthy ((st.store "random_user").map Prod.fst) = false) :
    get_random_user st u = (.error (.store msg), st) := by
  simp only [get_random_user, get_cached_ok hGet, hMiss,
    Bool.false_eq_true, if_false, set_cached_err hSet]

/-- The hit path of `get_random_user`: deserialize the cached text and
respond `"cache"` without touching the store. -/
theorem user_hit {st : RedisState} (u : UserRand) {c : String}
    {d : UserPayload} (hGet : st.failGet = none)
    (hc : (st.store "random_user").map Prod.fst = some c)
    (hne : ¬ (c = "")) (hload : UserPayload.loads c = some d) :
    get_random_user st u = (.ok ⟨d, "cache"⟩, st) := by
  simp only [get_random_user, get_cached_ok hGet, hc, truthy,
    decide_eq_true_eq, ne_eq, hne, not_false_eq_true, ite_true,
    Option.getD_some, hload]

/-- The decode-error path of `get_random_number`: `json.loads` fails on the
cached text, the error propagates, the state is unchanged. -/
theorem number_decode_fail {st : RedisState} (r : Nat) {c : String}
    (hGet : st.failGet = none)
    (hc : (st.store "random_number").map Prod.fst = some c)
    (hne : ¬ (c = "")) (hload : NumberPayload.loads c = none) :
    get_random_number st r = (.error (.decode c), st) := by
  simp only [get_random_number, get_cached_ok hGet, hc, truthy,
    decide_eq_true_eq, ne_eq, hne, not_false_eq_true, ite_true,
    Option.getD_some, hload]

/-- The decode-error path of `get_random_user`. -/
theorem user_decode_fail {st : RedisState} (u : UserRand) {c : String}
    (hGet : st.failGet = none)
    (hc : (st.store "random_user").map Prod.fst = some c)
    (hne : ¬ (c = "")) (hload : UserPayload.loads c = none) :
    get_random_user st u = (.error (.decode c), st) := by
  simp only [get_random_user, get_cached_ok hGet, hc, truthy,
    decide_eq_true_eq, ne_eq, hne, not_false_eq_true, ite_true,
    Option.getD_some, hload]

/-- A truthy cached read is a nonempty string. -/
theorem truthy_elim {o : Option String} (h : truthy o = true) :
    ∃ c, o = some c ∧ ¬ (c = "") := by
  cases o with
  | none => exact absurd h (by simp [truthy])
  | some c =>
    refine ⟨c, rfl, ?_⟩
    simpa [truthy] using h

/-- After any invocation of `get_random_number`, the Redis state is either
unchanged or the state after the single miss-path write. -/
theorem number_state_cases (st : RedisState) (r : Nat) :
    (get_random_number st r).2 = st ∨
    (get_random_number st r).2 =
      {st with store := st.store.setex "random_number" 30 (NumberPayload.dumps (generateNumber r))} := by
  cases hg : st.failGet with
  | some msg =>
    left
    rw [number_get_fail r hg]
  | none =>
    cases ht : truthy ((st.store "random_number").map Prod.fst) with
    | false =>
      cases hs : st.failSet with
      | some msg =>
        left
        rw [number_set_fail r hg hs ht]
      | none =>
        right
        rw [number_miss r hg hs ht, hg, hs]
    | true =>
      left
      obtain ⟨c, hc, hne⟩ := truthy_elim ht
      cases hl : NumberPayload.loads c with
      | some d => rw [number_hit r hg hc hne hl]
      | none => rw [number_decode_fail r hg hc hne hl]

/-- After any invocation of `get_random_user`, the Redis state is either
unchanged or the state after the single miss-path write. -/
theorem user_state_cases (st : RedisState) (u : UserRand) :
    (get_random_user st u).2 = st ∨
    (get_random_user st u).2 =
      {st with store := st.store.setex "random_user" 60 (UserPayload.dumps (generateUser u))} := by
  cases hg : st.failGet with
  | some msg =>
    left
    rw [user_get_fail u hg]
  | none =>
    cases ht : truthy ((st.store "random_user").map Prod.fst) with
    | false =>
      cases hs : st.failSet with
      | some msg =>
        left
        rw [user_set_fail u hg hs ht]
      | none =>
        right
        rw [user_miss u hg hs ht, hg, hs]
    | true =>
      left
      obtain ⟨c, hc, hne⟩ := truthy_elim ht
      cases hl : UserPayload.loads c with
      | some d => rw [user_hit u hg hc hne hl]
      | none => rw [user_decode_fail u hg hc hne hl]

/-! ### Facts about the generated values -/

theorem choice_mem (xs : List String) (hx : xs ≠ []) (r : Nat) :
    choice xs r ∈ xs := by
  unfold choice
  have hlen : 0 < xs.length := List.length_pos.mpr hx
  have hr : r % xs.length < xs.length := Nat.mod_lt _ hlen
  rw [List.getD_eq_getElem xs "" hr]
  exact List.getElem_mem hr

theorem quote_not_in_natDigits (n : Nat) : '"' ∉ natDigits n := by
  intro h
  have hs := natDigits_all_digits n '"' h
  have hq : digitVal '"' = none := by decide
  rw [hq] at hs
  exact absurd hs (by simp)

theorem quote_not_in_genName (u : UserRand) :
    '"' ∉ (generateUser u).name.data := by
  have hallf : ∀ s ∈ first_names, '"' ∉ s.data := by decide
  have halll : ∀ s ∈ last_names, '"' ∉ s.data := by decide
  have h1 : '"' ∉ (choice first_names u.rfirst).data :=
    hallf _ (choice_mem first_names (by decide) u.rfirst)
  have h2 : '"' ∉ (choice last_names u.rlast).data :=
    halll _ (choice_mem last_names (by decide) u.rlast)
  show '"' ∉ (choice first_names u.rfirst ++ " " ++ choice last_names u.rlast).data
  rw [String.data_append, String.data_append]
  intro h
  rcases List.mem_append.mp h with h | h
  · rcases List.mem_append.mp h with h | h
    · exact h1 h
    · exact absurd h (by decide)
  · exact h2 h

theorem quote_not_in_genEmail (u : UserRand) :
    '"' ∉ (generateUser u).email.data := by
  show '"' ∉ ("user" ++ natToString (randint 100 999 u.remail) ++ "@example.com").data
  rw [String.data_append, String.data_append]
  intro h
  rcases List.mem_append.mp h with h | h
  · rcases List.mem_append.mp h with h | h
    · exact absurd h (by decide)
    · exact quote_not_in_natDigits _ h
  · exact absurd h (by decide)

theorem digitCount_three {n : Nat} (h1 : 100 ≤ n) (h2 : n ≤ 999) :
    digitCount n = 3 := by
  have ha : ¬ n < 10 := by omega
  have hb : ¬ n / 10 < 10 := by omega
  have hcc : n / 10 / 10 < 10 := by omega
  rw [digitCount_ge ha, digitCount_ge hb, digitCount_lt hcc]

theorem natToString_length (n : Nat) :
    (natToString n).length = digitCount n := rfl

theorem number_dumps_ne_empty (p : NumberPayload) :
    ¬ (NumberPayload.dumps p = "") := by
  intro h
  have := congrArg String.data h
  rw [NumberPayload.dumps, mkData] at this
  exact absurd this (by simp [numberKey])

theorem user_dumps_ne_empty (p : UserPayload) :
    ¬ (UserPayload.dumps p = "") := by
  intro h
  have := congrArg String.data h
  rw [UserPayload.dumps, mkData] at this
  exact absurd this (by simp [idKey])

/-- Acquires against a state that already holds a pool never create a pool
and never change the state. -/
theorem runClient_pooled (p : PoolConfig) (es : List Env) :
    runClient ⟨some p⟩ (es.map ClientCall.acquire) = ⟨some p⟩ ∧
    poolCreations ⟨some p⟩ (es.map ClientCall.acquire) = 0 := by
  induction es with
  | nil => exact ⟨rfl, rfl⟩
  | cons e es ih =>
    have hstep : stepClient ⟨some p⟩ (ClientCall.acquire e) = ⟨some p⟩ := rfl
    constructor
    · show runClient (stepClient ⟨some p⟩ (ClientCall.acquire e))
        (es.map ClientCall.acquire) = ⟨some p⟩
      rw [hstep]
      exact ih.1
    · show (if createsPool ⟨some p⟩ (ClientCall.acquire e) then 1 else 0) +
        poolCreations (stepClient ⟨some p⟩ (ClientCall.acquire e))
          (es.map ClientCall.acquire) = 0
      rw [hstep, ih.2]
      rfl

/-! ### Fixtures used by the witnesses -/

/-- An empty cache with a healthy store. -/
def st0 : RedisState := ⟨Store.empty, none, none⟩

/-- A cache already holding a value and TTL under `"random_number"`. -/
def stPrior : RedisState := ⟨Store.empty.setex "random_number" 7 "old", none, none⟩

/-- A store whose `GET` fails. -/
def stGetFail : RedisState := ⟨Store.empty, some "redis down", none⟩

/-- A store whose `SETEX` fails. -/
def stSetFail : RedisState := ⟨Store.empty, none, some "redis down"⟩

/-- A fixed tuple of random draws for the user generator. -/
def u0 : UserRand := ⟨0, 0, 0, 0, 0⟩

/-- A second fixed tuple of random draws. -/
def u1 : UserRand := ⟨1, 2, 3, 4, 5⟩

/-- Environment of the first pool creation in the C9 trace. -/
def env1 : Env := ⟨some "localhost", some "6379", none, none⟩

/-- A different environment, in place at the second acquire of the C9
trace. -/
def env2 : Env := ⟨some "otherhost", some "6380", none, none⟩

/-! ### The claims -/

/-- Claim C1: when an endpoint's fixed cache key is absent, the handler
responds with source `"generated"` and writes the serialized generated data
under that key (TTL 30 for the number endpoint, 60 for the user endpoint);
an immediately following invocation of the same handler, the key still
present and unchanged, responds with source `"cache"` and data equal
field-for-field to the first response's data. -/
theorem C1_cache_population :
    (∀ st r r2, st.failGet = none → st.failSet = none →
      st.store "random_number" = none →
      ∃ d st2, get_random_number st r = (.ok ⟨d, "generated"⟩, st2) ∧
        st2.store "random_number" = some (NumberPayload.dumps d, 30) ∧
        get_random_number st2 r2 = (.ok ⟨d, "cache"⟩, st2)) ∧
    (∀ st u u2, st.failGet = none → st.failSet = none →
      st.store "random_user" = none →
      ∃ d st2, get_random_user st u = (.ok ⟨d, "generated"⟩, st2) ∧
        st2.store "random_user" = some (UserPayload.dumps d, 60) ∧
        get_random_user st2 u2 = (.ok ⟨d, "cache"⟩, st2)) := by
  constructor
  · intro st r r2 hg hs habs
    have hmiss : truthy ((st.store "random_number").map Prod.fst) = false := by
      rw [habs]
      rfl
    refine ⟨generateNumber r, _, number_miss r hg hs hmiss, ?_, ?_⟩
    · show (st.store.setex "random_number" 30
        (NumberPayload.dumps (generateNumber r))) "random_number" = _
      simp [Store.setex]
    · refine number_hit r2 hg ?_ (number_dumps_ne_empty _) (number_roundtrip _)
      show ((st.store.setex "random_number" 30
        (NumberPayload.dumps (generateNumber r))) "random_number").map Prod.fst = _
      simp [Store.setex]
  · intro st u u2 hg hs habs
    have hmiss : truthy ((st.store "random_user").map Prod.fst) = false := by
      rw [habs]
      rfl
    refine ⟨generateUser u, _, user_miss u hg hs hmiss, ?_, ?_⟩
    · show (st.store.setex "random_user" 60
        (UserPayload.dumps (generateUser u))) "random_user" = _
      simp [Store.setex]
    · refine user_hit u2 hg ?_ (user_dumps_ne_empty _)
        (user_roundtrip _ (quote_not_in_genName u) (quote_not_in_genEmail u))
      show ((st.store.setex "random_user" 60
        (UserPayload.dumps (generateUser u))) "random_user").map Prod.fst = _
      simp [Store.setex]

/-- Witness for C1 on the empty cache. -/
theorem C1_witness :
    (∃ d st2, get_random_number st0 0 = (.ok ⟨d, "generated"⟩, st2) ∧
      st2.store "random_number" = some (NumberPayload.dumps d, 30) ∧
      get_random_number st2 1 = (.ok ⟨d, "cache"⟩, st2)) ∧
    (∃ d st2, get_random_user st0 u0 = (.ok ⟨d, "generated"⟩, st2) ∧
      st2.store "random_user" = some (UserPayload.dumps d, 60) ∧
      get_random_user st2 u1 = (.ok ⟨d, "cache"⟩, st2)) :=
  ⟨C1_cache_population.1 st0 0 1 rfl rfl rfl,
   C1_cache_population.2 st0 u0 u1 rfl rfl rfl⟩

/-- Claim C2: every payload the number generator produces is an object
`{number: n}` with `1 ≤ n ≤ 100`. -/
theorem C2_number_range (r : Nat) :
    1 ≤ (generateNumber r).number ∧ (generateNumber r).number ≤ 100 := by
  have h : (generateNumber r).number = 1 + r % 100 := rfl
  rw [h]
  omega

/-- Claim C3: every payload the user generator produces has an id in
`[1000, 9999]`, an age in `[18, 65]`, a name `"<first> <last>"` with the
first name from the fixed 5-element list and the last name from the
disjoint fixed 5-element list, and an email `"user"` + 3-digit integer in
`[100, 999]` + `"@example.com"`. -/
theorem C3_user_fields (u : UserRand) :
    (1000 ≤ (generateUser u).id ∧ (generateUser u).id ≤ 9999) ∧
    (18 ≤ (generateUser u).age ∧ (generateUser u).age ≤ 65) ∧
    (∃ f ∈ first_names, ∃ l ∈ last_names,
      (generateUser u).name = f ++ " " ++ l) ∧
    (first_names.length = 5 ∧ last_names.length = 5 ∧
      ∀ x ∈ first_names, x ∉ last_names) ∧
    (∃ n, 100 ≤ n ∧ n ≤ 999 ∧ (natToString n).length = 3 ∧
      (generateUser u).email = "user" ++ natToString n ++ "@example.com") := by
  refine ⟨?_, ?_, ?_, by decide, ?_⟩
  · have h : (generateUser u).id = 1000 + u.rid % 9000 := rfl
    rw [h]
    omega
  · have h : (generateUser u).age = 18 + u.rage % 48 := rfl
    rw [h]
    omega
  · exact ⟨_, choice_mem first_names (by decide) u.rfirst,
      _, choice_mem last_names (by decide) u.rlast, rfl⟩
  · have h : randint 100 999 u.remail = 100 + u.remail % 900 := rfl
    have hlo : 100 ≤ randint 100 999 u.remail := by omega
    have hhi : randint 100 999 u.remail ≤ 999 := by omega
    refine ⟨randint 100 999 u.remail, hlo, hhi, ?_, rfl⟩
    rw [natToString_length]
    exact digitCount_three hlo hhi

/-- Claim C4: on a cache miss, the number endpoint writes its serialized
payload with a TTL of exactly 30 seconds and the user endpoint with exactly
60 seconds. -/
theorem C4_miss_ttl :
    (∀ st r, st.failGet = none → st.failSet = none →
      truthy ((st.store "random_number").map Prod.fst) = false →
      ((get_random_number st r).2).store "random_number" =
        some (NumberPayload.dumps (generateNumber r), 30)) ∧
    (∀ st u, st.failGet = none → st.failSet = none →
      truthy ((st.store "random_user").map Prod.fst) = false →
      ((get_random_user st u).2).store "random_user" =
        some (UserPayload.dumps (generateUser u), 60)) := by
  constructor
  · intro st r h1 h2 h3
    rw [number_miss r h1 h2 h3]
    show (st.store.setex "random_number" 30 _) "random_number" = _
    simp [Store.setex]
  · intro st u h1 h2 h3
    rw [user_miss u h1 h2 h3]
    show (st.store.setex "random_user" 60 _) "random_user" = _
    simp [Store.setex]

/-- Witness for C4 on the empty cache. -/
theorem C4_witness :
    ((get_random_number st0 0).2).store "random_number" =
      some (NumberPayload.dumps (generateNumber 0), 30) ∧
    ((get_random_user st0 u0).2).store "random_user" =
      some (UserPayload.dumps (generateUser u0), 60) :=
  ⟨C4_miss_ttl.1 st0 0 rfl rfl rfl, C4_miss_ttl.2 st0 u0 rfl rfl rfl⟩

/-- Claim C5: for every payload either generator produces, serializing it to
JSON text and deserializing that text back yields the original payload
field-for-field. -/
theorem C5_roundtrip :
    (∀ r, NumberPayload.loads (NumberPayload.dumps (generateNumber r)) =
      some (generateNumber r)) ∧
    (∀ u, UserPayload.loads (UserPayload.dumps (generateUser u)) =
      some (generateUser u)) :=
  ⟨fun _ => number_roundtrip _,
   fun u => user_roundtrip _ (quote_not_in_genName u) (quote_not_in_genEmail u)⟩

/-- Claim C6: a store error during the cache read or the cache write
propagates out of the handler unchanged — the handler never falls back to a
`"generated"` response — and the cache state is left unchanged. -/
theorem C6_error_propagation :
    (∀ st r msg, st.failGet = some msg →
      get_random_number st r = (.error (.store msg), st)) ∧
    (∀ st u msg, st.failGet = some msg →
      get_random_user st u = (.error (.store msg), st)) ∧
    (∀ st r msg, st.failGet = none → st.failSet = some msg →
      truthy ((st.store "random_number").map Prod.fst) = false →
      get_random_number st r = (.error (.store msg), st)) ∧
    (∀ st u msg, st.failGet = none → st.failSet = some msg →
      truthy ((st.store "random_user").map Prod.fst) = false →
      get_random_user st u = (.error (.store msg), st)) :=
  ⟨fun _ r _ h => number_get_fail r h,
   fun _ u _ h => user_get_fail u h,
   fun _ r _ h1 h2 h3 => number_set_fail r h1 h2 h3,
   fun _ u _ h1 h2 h3 => user_set_fail u h1 h2 h3⟩

/-- Witness for C6 on failing stores. -/
theorem C6_witness :
    get_random_number stGetFail 0 = (.error (.store "redis down"), stGetFail) ∧
    get_random_user stGetFail u0 = (.error (.store "redis down"), stGetFail) ∧
    get_random_number stSetFail 0 = (.error (.store "redis down"), stSetFail) ∧
    get_random_user stSetFail u0 = (.error (.store "redis down"), stSetFail) :=
  ⟨C6_error_propagation.1 stGetFail 0 _ rfl,
   C6_error_propagation.2.1 stGetFail u0 _ rfl,
   C6_error_propagation.2.2.1 stSetFail 0 _ rfl rfl rfl,
   C6_error_propagation.2.2.2 stSetFail u0 _ rfl rfl rfl⟩

/-- Claim C7: the cache write stores value and expiry in one store operation
that overwrites whatever the key held: afterwards the key maps to exactly
the new value with exactly the new TTL, whatever its prior state, and no
other key is involved. -/
theorem C7_write_overwrite (st : RedisState) (key value : String) (ttl : Nat)
    (hSet : st.failSet = none) :
    ∃ st2, set_cached_data st key value ttl = .ok st2 ∧
      st2.store key = some (value, ttl) ∧
      ∀ k, k ≠ key → st2.store k = st.store k := by
  refine ⟨_, set_cached_ok hSet key value ttl, ?_, ?_⟩
  · show (st.store.setex key ttl value) key = some (value, ttl)
    simp [Store.setex]
  · intro k hk
    show (st.store.setex key ttl value) k = st.store k
    simp [Store.setex, hk]

/-- Witness for C7: overwriting a key that already holds a value and TTL. -/
theorem C7_witness :
    ∃ st2, set_cached_data stPrior "random_number" "new" 30 = .ok st2 ∧
      st2.store "random_number" = some ("new", 30) ∧
      ∀ k, k ≠ "random_number" → st2.store k = stPrior.store k :=
  C7_write_overwrite stPrior "random_number" "new" 30 rfl

/-- Claim C8: `RedisClient.close` with no pool is a no-op that raises no
error and leaves the state unchanged; with a pool it disconnects and removes
it. -/
theorem C8_close_noop (s : ClientState) :
    (s.pool = none → RedisClient.close s = s) ∧
    (∀ p, s.pool = some p → (RedisClient.close s).pool = none) := by
  constructor
  · intro h
    simp only [RedisClient.close, h]
  · intro p h
    simp only [RedisClient.close, h]

/-- Witness for C8 on both shapes of the client state. -/
theorem C8_witness :
    RedisClient.close ⟨none⟩ = ⟨none⟩ ∧
    (RedisClient.close ⟨some (poolFromEnv env1)⟩).pool = none :=
  ⟨(C8_close_noop ⟨none⟩).1 rfl,
   (C8_close_noop ⟨some (poolFromEnv env1)⟩).2 (poolFromEnv env1) rfl⟩

/-- Claim C9 as stated is false: in the trace acquire, shutdown, acquire the
pool is created twice, and the second creation re-reads the (changed)
environment — `RedisClient.close` resets `_pool` to `None`, so a later
`get_redis` rebuilds it from the environment current at that time. -/
theorem C9_counterexample :
    poolCreations ⟨none⟩
      [ClientCall.acquire env1, ClientCall.shutdown, ClientCall.acquire env2]
      = 2 ∧
    (runClient ⟨none⟩
      [ClientCall.acquire env1, ClientCall.shutdown, ClientCall.acquire env2]).pool
      = some (poolFromEnv env2) ∧
    poolFromEnv env2 ≠ poolFromEnv env1 :=
  ⟨rfl, rfl, by decide⟩

/-- Claim C9, amended: in any sequence of acquires with no intervening
shutdown, the pool is created exactly once, by the first acquire, from the
environment current at that moment; every later acquire returns the same
pool and ignores the environment; an acquire on a pool-less state (fresh or
after a shutdown) creates the pool from the environment current then. -/
theorem C9_pool_singleton :
    (∀ e es, runClient ⟨none⟩ ((e :: es).map ClientCall.acquire) =
        ⟨some (poolFromEnv e)⟩ ∧
      poolCreations ⟨none⟩ ((e :: es).map ClientCall.acquire) = 1) ∧
    (∀ env p, RedisClient.get_redis env ⟨some p⟩ = (p, ⟨some p⟩)) ∧
    (∀ env, RedisClient.get_redis env ⟨none⟩ =
      (poolFromEnv env, ⟨some (poolFromEnv env)⟩)) := by
  refine ⟨?_, fun env p => rfl, fun env => rfl⟩
  intro e es
  have h1 : stepClient ⟨none⟩ (ClientCall.acquire e) = ⟨some (poolFromEnv e)⟩ := rfl
  constructor
  · show runClient (stepClient ⟨none⟩ (ClientCall.acquire e))
      (es.map ClientCall.acquire) = _
    rw [h1]
    exact (runClient_pooled _ es).1
  · show (if createsPool ⟨none⟩ (ClientCall.acquire e) then 1 else 0) +
      poolCreations (stepClient ⟨none⟩ (ClientCall.acquire e))
        (es.map ClientCall.acquire) = 1
    rw [h1, (runClient_pooled (poolFromEnv e) es).2]
    rfl

/-- Claim C10: each handler writes at most its own fixed key: the number
handler leaves the value and TTL under every key other than
`"random_number"` unchanged, and the user handler every key other than
`"random_user"`. -/
theorem C10_key_frame :
    (∀ st r k, k ≠ "random_number" →
      ((get_random_number st r).2).store k = st.store k) ∧
    (∀ st u k, k ≠ "random_user" →
      ((get_random_user st u).2).store k = st.store k) := by
  constructor
  · intro st r k hk
    rcases number_state_cases st r with h | h <;> rw [h]
    show (st.store.setex "random_number" 30 _) k = st.store k
    simp [Store.setex, hk]
  · intro st u k hk
    rcases user_state_cases st u with h | h <;> rw [h]
    show (st.store.setex "random_user" 60 _) k = st.store k
    simp [Store.setex, hk]

/-- Witness for C10 on a cache holding the other endpoint's key. -/
theorem C10_witness :
    ((get_random_number stPrior 0).2).store "random_user" =
      stPrior.store "random_user" ∧
    ((get_random_user stPrior u0).2).store "random_number" =
      stPrior.store "random_number" :=
  ⟨C10_key_frame.1 stPrior 0 "random_user" (by decide),
   C10_key_frame.2 stPrior u0 "random_number" (by decide)⟩

end RedisApp
